import Mathlib

/-!
Verification development for the cleverchatty-cli repository (src/main.go).

The Go program is shallowly embedded: Go strings are Lean `String`s
(manipulated through their underlying character lists so that all
definitions evaluate inside the kernel), the process environment and the
file system are explicit parameters, and the interactive session loop is
a recursive function over a script of input events.  Line numbers in the
comments refer to src/main.go.
-/

namespace CleverchattyCli

/-! ### String helpers

Go's `strings.HasPrefix`, `strings.TrimSpace` and `strings.ToLower`
translated to character-list operations (`Char.toLower` covers the ASCII
range, which is all the command table uses). -/

def listStartsWith : List Char → List Char → Bool
  | _, [] => true
  | [], _ :: _ => false
  | c :: cs, d :: ds => c == d && listStartsWith cs ds

/-- Go `strings.HasPrefix s pat`. -/
def goStartsWith (s pat : String) : Bool := listStartsWith s.data pat.data

/-- Go `strings.TrimSpace`: drop leading and trailing whitespace. -/
def goTrim (s : String) : String :=
  ⟨((s.data.dropWhile Char.isWhitespace).reverse.dropWhile Char.isWhitespace).reverse⟩

/-- Go `strings.ToLower` (ASCII range). -/
def goToLower (s : String) : String := ⟨s.data.map Char.toLower⟩

/-! ### Configuration data model

`cleverchatty.CleverChattyConfig` as used by main.go: the provider
credential sections, model, message window and debug flag.  The MCP
server map and other fields never touched by `loadConfig`'s override
logic are omitted. -/

structure ProviderConfig where
  APIKey : String
  BaseURL : String
  DefaultModel : String
deriving DecidableEq, Repr

structure CleverChattyConfig where
  LogFilePath : String
  Model : String
  MessageWindow : Int
  DebugMode : Bool
  SystemInstruction : String
  OpenAI : ProviderConfig
  Anthropic : ProviderConfig
  Google : ProviderConfig
deriving DecidableEq, Repr

/-- Go zero value `cleverchatty.CleverChattyConfig{}` (main.go:143). -/
def emptyConfig : CleverChattyConfig :=
  { LogFilePath := "", Model := "", MessageWindow := 0, DebugMode := false,
    SystemInstruction := "",
    OpenAI := { APIKey := "", BaseURL := "", DefaultModel := "" },
    Anthropic := { APIKey := "", BaseURL := "", DefaultModel := "" },
    Google := { APIKey := "", BaseURL := "", DefaultModel := "" } }

/-- main.go:24-26. -/
def defaultModelFlag : String := "anthropic:claude-3-5-sonnet-latest"

/-- The command-line flag variables of main.go:28-39, registered in
`init` (main.go:108-127); every string flag defaults to `""`,
`message-window` defaults to `0`, `debug` to `false`. -/
structure Flags where
  configFile : String
  messageWindow : Int
  modelFlag : String
  debugMode : Bool
  openaiBaseURL : String
  anthropicBaseURL : String
  openaiAPIKey : String
  anthropicAPIKey : String
  googleAPIKey : String
deriving DecidableEq, Repr

/-- The environment variables read by `loadConfig` via `os.Getenv`
(main.go:174,180,186,190).  `os.Getenv` returns `""` for an unset
variable, so each field is simply a string. -/
structure Env where
  OPENAI_API_KEY : String
  ANTHROPIC_API_KEY : String
  GOOGLE_API_KEY : String
  GEMINI_API_KEY : String
deriving DecidableEq, Repr

/-- Result of `os.Stat` as discriminated by main.go: either the stat
succeeds (`err == nil`), or the error satisfies `os.IsNotExist`, or it
is some other error. -/
inductive StatResult
  | ok
  | notExist
  | otherError
deriving DecidableEq, Repr

/-- Abstraction of the file system and of the two config-file loaders
from the external `cleverchatty` package (`LoadMCPConfig`,
`CreateStandardConfigFile`), which are collaborators outside src/. -/
structure ConfigFS where
  stat : String → StatResult
  LoadMCPConfig : String → Except String CleverChattyConfig
  CreateStandardConfigFile : String → Except String CleverChattyConfig

/-! ### loadConfig (main.go:129-194)

The base-selection part (main.go:134-151) and the override chain
(main.go:152-191) are factored into named pieces; their composition
`loadConfig` follows the Go statement order exactly. -/

/-- main.go:134-148: choose and load the base configuration.  If no
`--config` flag was given and `./config.json` stats cleanly, use it;
an empty remaining path yields the empty config; an explicitly given
path that does not exist is created with standard content; otherwise
the file is loaded and parsed. -/
def loadBase (fl : Flags) (fs : ConfigFS) : Except String CleverChattyConfig :=
  let configFile :=
    if fl.configFile = "" ∧ fs.stat "config.json" = StatResult.ok then "config.json"
    else fl.configFile
  if configFile = "" then Except.ok emptyConfig
  else if fs.stat configFile = StatResult.notExist then fs.CreateStandardConfigFile configFile
  else fs.LoadMCPConfig configFile

/-- main.go:152-154. -/
def applyDebug (fl : Flags) (c : CleverChattyConfig) : CleverChattyConfig :=
  if fl.debugMode then { c with DebugMode := true } else c

/-- main.go:155-157. -/
def applyMessageWindow (fl : Flags) (c : CleverChattyConfig) : CleverChattyConfig :=
  if fl.messageWindow > 0 then { c with MessageWindow := fl.messageWindow } else c

/-- main.go:158-163: `--model` flag wins; then the hard-coded default
fills an empty model. -/
def applyModel (fl : Flags) (c : CleverChattyConfig) : CleverChattyConfig :=
  let c := if fl.modelFlag ≠ "" then { c with Model := fl.modelFlag } else c
  if c.Model = "" then { c with Model := defaultModelFlag } else c

/-- main.go:164-166. -/
def applyOpenAIBaseURL (fl : Flags) (c : CleverChattyConfig) : CleverChattyConfig :=
  if fl.openaiBaseURL ≠ "" then
    { c with OpenAI := { c.OpenAI with BaseURL := fl.openaiBaseURL } }
  else c

/-- main.go:167-169. -/
def applyAnthropicBaseURL (fl : Flags) (c : CleverChattyConfig) : CleverChattyConfig :=
  if fl.anthropicBaseURL ≠ "" then
    { c with Anthropic := { c.Anthropic with BaseURL := fl.anthropicBaseURL } }
  else c

/-- main.go:170-175: flag, then `OPENAI_API_KEY` as fallback. -/
def applyOpenAIKey (fl : Flags) (env : Env) (c : CleverChattyConfig) : CleverChattyConfig :=
  let c := if fl.openaiAPIKey ≠ "" then
    { c with OpenAI := { c.OpenAI with APIKey := fl.openaiAPIKey } } else c
  if c.OpenAI.APIKey = "" then
    { c with OpenAI := { c.OpenAI with APIKey := env.OPENAI_API_KEY } }
  else c

/-- main.go:176-181: flag, then `ANTHROPIC_API_KEY` as fallback. -/
def applyAnthropicKey (fl : Flags) (env : Env) (c : CleverChattyConfig) : CleverChattyConfig :=
  let c := if fl.anthropicAPIKey ≠ "" then
    { c with Anthropic := { c.Anthropic with APIKey := fl.anthropicAPIKey } } else c
  if c.Anthropic.APIKey = "" then
    { c with Anthropic := { c.Anthropic with APIKey := env.ANTHROPIC_API_KEY } }
  else c

/-- main.go:182-191: flag, then `GOOGLE_API_KEY`, then `GEMINI_API_KEY`. -/
def applyGoogleKey (fl : Flags) (env : Env) (c : CleverChattyConfig) : CleverChattyConfig :=
  let c := if fl.googleAPIKey ≠ "" then
    { c with Google := { c.Google with APIKey := fl.googleAPIKey } } else c
  let c := if c.Google.APIKey = "" then
    { c with Google := { c.Google with APIKey := env.GOOGLE_API_KEY } } else c
  if c.Google.APIKey = "" then
    { c with Google := { c.Google with APIKey := env.GEMINI_API_KEY } }
  else c

/-- main.go:152-191 in statement order. -/
def applyOverrides (c : CleverChattyConfig) (fl : Flags) (env : Env) : CleverChattyConfig :=
  applyGoogleKey fl env
    (applyAnthropicKey fl env
      (applyOpenAIKey fl env
        (applyAnthropicBaseURL fl
          (applyOpenAIBaseURL fl
            (applyModel fl
              (applyMessageWindow fl
                (applyDebug fl c)))))))

/-- main.go:129-194: `loadConfig`. -/
def loadConfig (fl : Flags) (env : Env) (fs : ConfigFS) : Except String CleverChattyConfig :=
  match loadBase fl fs with
  | Except.error e => Except.error ("error loading config file: " ++ e)
  | Except.ok config => Except.ok (applyOverrides config fl env)

/-- First non-empty string of a list of precedence-ordered sources,
or `""` when all are empty (the spec's "highest-precedence non-empty
source" with an empty default). -/
def firstNonEmpty : List String → String
  | [] => ""
  | s :: rest => if s = "" then firstNonEmpty rest else s

/-! ### Busy indicator (main.go:41-45, 517-537)

The Go state is the shared flag `actionInProgress` plus the two
handshake channels.  `releaseActionSpinner` signals the running
presentation goroutine through `actionChannel` and then blocks on
`actionCanceledChannel` until the goroutine has acknowledged — i.e. the
goroutine's spinner `Run` has returned — so from the caller's point of
view the call completes with the old loop dead.  We model each call as
an atomic step whose observable effect is the list of terminal events
it causes, in order: `spinnerStart` when a presentation goroutine is
spawned, `spinnerStop` when one has stopped and acknowledged. -/

inductive TermEvent
  | spinnerStart (label : String)
  | spinnerStop
  | printPrompt (text : String)
  | printToolError (toolName : String)
  | printResponse (text : String)
deriving DecidableEq, Repr

/-- main.go:517-523: no-op unless `actionInProgress`; otherwise clears
the flag and completes the stop handshake (old loop stops and acks). -/
def releaseActionSpinner (actionInProgress : Bool) : Bool × List TermEvent :=
  if actionInProgress then (false, [TermEvent.spinnerStop]) else (actionInProgress, [])

/-- main.go:525-537: if an indicator is active, first run the full
`releaseActionSpinner` handshake, then set the flag and spawn the new
presentation goroutine. -/
def showSpinner (actionInProgress : Bool) (text : String) : Bool × List TermEvent :=
  let r := if actionInProgress then releaseActionSpinner actionInProgress
           else (actionInProgress, [])
  (true, r.2 ++ [TermEvent.spinnerStart text])

/-- An abstract call into the busy-indicator controller: a `showOp`
is a call to `showSpinner`, a `hideOp` a call to
`releaseActionSpinner`. -/
inductive SpinnerOp
  | showOp (label : String)
  | hideOp
deriving DecidableEq, Repr

def spinnerStep (s : Bool) : SpinnerOp → Bool × List TermEvent
  | SpinnerOp.showOp lbl => showSpinner s lbl
  | SpinnerOp.hideOp => releaseActionSpinner s

/-- Run a sequence of controller calls from state `s`, collecting the
generated terminal events in order. -/
def spinnerRun (s : Bool) : List SpinnerOp → Bool × List TermEvent
  | [] => (s, [])
  | op :: rest =>
    let r1 := spinnerStep s op
    let r2 := spinnerRun r1.1 rest
    (r2.1, r1.2 ++ r2.2)

/-- Walk an event trace counting live presentation loops, starting from
`k` alive: a `spinnerStart` is legal only when no loop is alive, a
`spinnerStop` only when one is; any violation yields `none`.  A `some`
result certifies that at every instant of the trace at most one
presentation loop was alive. -/
def aliveRun : Nat → List TermEvent → Option Nat
  | k, [] => some k
  | k, TermEvent.spinnerStart _ :: rest => if k = 0 then aliveRun 1 rest else none
  | k, TermEvent.spinnerStop :: rest => if k = 1 then aliveRun 0 rest else none
  | k, TermEvent.printPrompt _ :: rest => aliveRun k rest
  | k, TermEvent.printToolError _ :: rest => aliveRun k rest
  | k, TermEvent.printResponse _ :: rest => aliveRun k rest

/-! ### Lifecycle event router (main.go:559-580)

One callback slot per engine lifecycle event; each handler drives the
busy indicator and/or writes to the terminal exactly as the closures
registered in `run` do. -/

inductive LifecycleEvent
  | promptSubmitted (text : String)
  | thinkingStarted
  | toolCallStarted (toolName : String)
  | toolCallFailed (toolName : String) (err : String)
  | responseReceived (text : String)
deriving DecidableEq, Repr

/-- The callbacks registered at main.go:559-580, as one handler over the
busy-indicator state: returns the new state and the terminal events in
the order they occur. -/
def handleEvent (s : Bool) : LifecycleEvent → Bool × List TermEvent
  | LifecycleEvent.promptSubmitted t => (s, [TermEvent.printPrompt t])
  | LifecycleEvent.thinkingStarted => showSpinner s "💭 Thinking..."
  | LifecycleEvent.toolCallStarted n => showSpinner s ("🔧 Using tool: " ++ n)
  | LifecycleEvent.toolCallFailed n _e =>
    let r := releaseActionSpinner s
    (r.1, r.2 ++ [TermEvent.printToolError n])
  | LifecycleEvent.responseReceived t =>
    let r := releaseActionSpinner s
    (r.1, r.2 ++ [TermEvent.printResponse t])

/-- Process a sequence of engine lifecycle events. -/
def runEvents (s : Bool) : List LifecycleEvent → Bool × List TermEvent
  | [] => (s, [])
  | e :: rest =>
    let r1 := handleEvent s e
    let r2 := runEvents r1.1 rest
    (r2.1, r1.2 ++ r2.2)

/-! ### Command dispatcher (main.go:213-240) -/

/-- Observable outcome of `handleSlashCommand`: the Go function returns
`(false, nil)` for a non-command line, `(true, nil)` after printing for
the known and unknown commands, and for `/quit` prints a farewell and
schedules `os.Exit(0)` via `defer`, which fires as soon as the function
returns. -/
inductive SlashOutcome
  | notCommand
  | handled (cmd : String)
  | quitExit
deriving DecidableEq, Repr

/-- main.go:213-240: lines not starting with the slash character are
not commands; otherwise the trimmed, lower-cased line is matched
against the fixed table. -/
def handleSlashCommand (prompt : String) : SlashOutcome :=
  if goStartsWith prompt "/" = false then SlashOutcome.notCommand
  else
    let cmd := goToLower (goTrim prompt)
    if cmd = "/tools" then SlashOutcome.handled "/tools"
    else if cmd = "/help" then SlashOutcome.handled "/help"
    else if cmd = "/history" then SlashOutcome.handled "/history"
    else if cmd = "/servers" then SlashOutcome.handled "/servers"
    else if cmd = "/quit" then SlashOutcome.quitExit
    else SlashOutcome.handled "unknown"

/-! ### Session loop (main.go:538-624) and main (main.go:626-630)

The loop is driven by a script of input events: each iteration of the
Go `for` loop consumes one event.  A `line` is what the huh form
returns; `ctrlC` is the `huh.ErrUserAborted` error; `readErr` is any
other error from the form.  The engine's `Prompt` method is an abstract
collaborator `String → Except String Unit`. -/

inductive InputEvent
  | line (s : String)
  | ctrlC
  | readErr (msg : String)
deriving DecidableEq, Repr

/-- Observable actions of one session, in order. -/
inductive SessionAction
  | goodbye
  | commandOut (cmd : String)
  | prompted (text : String)
deriving DecidableEq, Repr

/-- How the session ended. -/
inductive RunExit
  | osExit (code : Nat)
  | returnedOk
  | returnedErr (msg : String)
  | stillRunning
deriving DecidableEq, Repr

/-- main.go:586-623: the interaction loop.  Returns the ordered actions
and how the loop ended; `stillRunning` means the input script was
exhausted with the loop still awaiting input. -/
def sessionLoop (engine : String → Except String Unit) :
    List InputEvent → List SessionAction × RunExit
  | [] => ([], RunExit.stillRunning)
  | InputEvent.ctrlC :: _ => ([SessionAction.goodbye], RunExit.returnedOk)
  | InputEvent.readErr m :: _ => ([], RunExit.returnedErr m)
  | InputEvent.line p :: rest =>
    if p = "" then sessionLoop engine rest
    else
      match handleSlashCommand p with
      | SlashOutcome.quitExit => ([SessionAction.goodbye], RunExit.osExit 0)
      | SlashOutcome.handled c =>
        let r := sessionLoop engine rest
        (SessionAction.commandOut c :: r.1, r.2)
      | SlashOutcome.notCommand =>
        match engine p with
        | Except.error e => ([SessionAction.prompted p], RunExit.returnedErr e)
        | Except.ok _ =>
          let r := sessionLoop engine rest
          (SessionAction.prompted p :: r.1, r.2)

structure SessionResult where
  outputs : List SessionAction
  exit : RunExit
  finishCount : Nat
deriving DecidableEq, Repr

/-- How many times the deferred `cleverChattyObject.Finish()`
(main.go:551-557) runs for a given loop exit.  In Go, `os.Exit`
terminates the process immediately WITHOUT running deferred functions,
so the `/quit` path (whose `defer os.Exit(0)` at main.go:233 fires when
`handleSlashCommand` returns) skips the deferred `Finish`; every path
on which `run` returns (nil or an error) runs it exactly once. -/
def finishCountFor : RunExit → Nat
  | RunExit.osExit _ => 0
  | RunExit.returnedOk => 1
  | RunExit.returnedErr _ => 1
  | RunExit.stillRunning => 0

/-- The session loop of `run` (main.go:538-624) after the engine handle
was successfully constructed, together with the deferred-cleanup
accounting. -/
def run (engine : String → Except String Unit) (events : List InputEvent) : SessionResult :=
  let r := sessionLoop engine events
  { outputs := r.1, exit := r.2, finishCount := finishCountFor r.2 }

/-- main.go:626-630: `rootCmd.Execute` returning an error makes `main`
call `os.Exit(1)`; a nil return exits the process with status 0; an
`os.Exit` inside a handler sets its own code.  `none` when the session
has not terminated. -/
def mainExitCode : RunExit → Option Nat
  | RunExit.osExit c => some c
  | RunExit.returnedOk => some 0
  | RunExit.returnedErr _ => some 1
  | RunExit.stillRunning => none

/-- An engine whose prompt submission always succeeds; used for
concrete evaluations. -/
def engineOK : String → Except String Unit := fun _ => Except.ok ()

/-! ### Concrete fixtures used in closed-form evaluations -/

/-- All command-line flags left at their registered defaults
(main.go:108-127). -/
def noFlags : Flags :=
  { configFile := "", messageWindow := 0, modelFlag := "", debugMode := false,
    openaiBaseURL := "", anthropicBaseURL := "", openaiAPIKey := "",
    anthropicAPIKey := "", googleAPIKey := "" }

/-- An environment with none of the four credential variables set. -/
def emptyEnv : Env :=
  { OPENAI_API_KEY := "", ANTHROPIC_API_KEY := "", GOOGLE_API_KEY := "", GEMINI_API_KEY := "" }

/-- A file system on which `./config.json` exists but its content does
not parse. -/
def corruptDefaultFS : ConfigFS :=
  { stat := fun p => if p = "config.json" then StatResult.ok else StatResult.notExist,
    LoadMCPConfig := fun _ => Except.error "unexpected end of JSON input",
    CreateStandardConfigFile := fun _ => Except.ok emptyConfig }

/-- A file system with no files at all. -/
def noFileFS : ConfigFS :=
  { stat := fun _ => StatResult.notExist,
    LoadMCPConfig := fun _ => Except.error "no such file",
    CreateStandardConfigFile := fun _ => Except.error "read-only file system" }

/-- A config-file content with a positive message window and a model. -/
def windowBase : CleverChattyConfig :=
  { emptyConfig with MessageWindow := 5, Model := "ollama:qwen2.5:3b" }

/-- A file system on which `./config.json` exists and parses to
`windowBase`. -/
def windowFS : ConfigFS :=
  { stat := fun _ => StatResult.ok,
    LoadMCPConfig := fun _ => Except.ok windowBase,
    CreateStandardConfigFile := fun _ => Except.error "unused" }

/-- Flags exercising the precedence chain: some credentials given by
flag, some left to the file or the environment. -/
def wflags : Flags :=
  { configFile := "creds.json", messageWindow := 0, modelFlag := "", debugMode := false,
    openaiBaseURL := "", anthropicBaseURL := "https://alt.anthropic.example",
    openaiAPIKey := "", anthropicAPIKey := "sk-ant-flag", googleAPIKey := "" }

/-- Environment exercising the fallback chain, including the second
Google variable name. -/
def wenv : Env :=
  { OPENAI_API_KEY := "sk-openai-env", ANTHROPIC_API_KEY := "sk-ant-env",
    GOOGLE_API_KEY := "", GEMINI_API_KEY := "gemini-env" }

/-- File-sourced credentials for the precedence fixture. -/
def wbase : CleverChattyConfig :=
  { emptyConfig with
    OpenAI := { APIKey := "", BaseURL := "https://file.openai.example", DefaultModel := "" },
    Anthropic := { APIKey := "sk-ant-file", BaseURL := "", DefaultModel := "" } }

/-- A file system on which the explicitly given path exists and parses
to `wbase`. -/
def wfs : ConfigFS :=
  { stat := fun _ => StatResult.ok,
    LoadMCPConfig := fun _ => Except.ok wbase,
    CreateStandardConfigFile := fun _ => Except.error "unused" }

/-! ### Projection lemmas for the override chain

Each step of main.go:152-191 touches one field group; these lemmas
record the field it computes and the fields it passes through. -/

@[simp] theorem applyDebug_OpenAI (fl : Flags) (c : CleverChattyConfig) :
    (applyDebug fl c).OpenAI = c.OpenAI := by
  unfold applyDebug; split <;> rfl

@[simp] theorem applyDebug_Anthropic (fl : Flags) (c : CleverChattyConfig) :
    (applyDebug fl c).Anthropic = c.Anthropic := by
  unfold applyDebug; split <;> rfl

@[simp] theorem applyDebug_Google (fl : Flags) (c : CleverChattyConfig) :
    (applyDebug fl c).Google = c.Google := by
  unfold applyDebug; split <;> rfl

@[simp] theorem applyDebug_Model (fl : Flags) (c : CleverChattyConfig) :
    (applyDebug fl c).Model = c.Model := by
  unfold applyDebug; split <;> rfl

@[simp] theorem applyDebug_MessageWindow (fl : Flags) (c : CleverChattyConfig) :
    (applyDebug fl c).MessageWindow = c.MessageWindow := by
  unfold applyDebug; split <;> rfl

@[simp] theorem applyMessageWindow_OpenAI (fl : Flags) (c : CleverChattyConfig) :
    (applyMessageWindow fl c).OpenAI = c.OpenAI := by
  unfold applyMessageWindow; split <;> rfl

@[simp] theorem applyMessageWindow_Anthropic (fl : Flags) (c : CleverChattyConfig) :
    (applyMessageWindow fl c).Anthropic = c.Anthropic := by
  unfold applyMessageWindow; split <;> rfl

@[simp] theorem applyMessageWindow_Google (fl : Flags) (c : CleverChattyConfig) :
    (applyMessageWindow fl c).Google = c.Google := by
  unfold applyMessageWindow; split <;> rfl

@[simp] theorem applyMessageWindow_Model (fl : Flags) (c : CleverChattyConfig) :
    (applyMessageWindow fl c).Model = c.Model := by
  unfold applyMessageWindow; split <;> rfl

@[simp] theorem applyMessageWindow_MessageWindow (fl : Flags) (c : CleverChattyConfig) :
    (applyMessageWindow fl c).MessageWindow =
      if fl.messageWindow > 0 then fl.messageWindow else c.MessageWindow := by
  unfold applyMessageWindow; split <;> simp_all

@[simp] theorem applyModel_OpenAI (fl : Flags) (c : CleverChattyConfig) :
    (applyModel fl c).OpenAI = c.OpenAI := by
  simp only [applyModel]; split_ifs <;> rfl

@[simp] theorem applyModel_Anthropic (fl : Flags) (c : CleverChattyConfig) :
    (applyModel fl c).Anthropic = c.Anthropic := by
  simp only [applyModel]; split_ifs <;> rfl

@[simp] theorem applyModel_Google (fl : Flags) (c : CleverChattyConfig) :
    (applyModel fl c).Google = c.Google := by
  simp only [applyModel]; split_ifs <;> rfl

@[simp] theorem applyModel_MessageWindow (fl : Flags) (c : CleverChattyConfig) :
    (applyModel fl c).MessageWindow = c.MessageWindow := by
  simp only [applyModel]; split_ifs <;> rfl

@[simp] theorem applyModel_Model (fl : Flags) (c : CleverChattyConfig) :
    (applyModel fl c).Model =
      if fl.modelFlag = "" then
        (if c.Model = "" then defaultModelFlag else c.Model)
      else fl.modelFlag := by
  simp only [applyModel]; split_ifs <;> simp_all

@[simp] theorem applyOpenAIBaseURL_Anthropic (fl : Flags) (c : CleverChattyConfig) :
    (applyOpenAIBaseURL fl c).Anthropic = c.Anthropic := by
  unfold applyOpenAIBaseURL; split <;> rfl

@[simp] theorem applyOpenAIBaseURL_Google (fl : Flags) (c : CleverChattyConfig) :
    (applyOpenAIBaseURL fl c).Google = c.Google := by
  unfold applyOpenAIBaseURL; split <;> rfl

@[simp] theorem applyOpenAIBaseURL_Model (fl : Flags) (c : CleverChattyConfig) :
    (applyOpenAIBaseURL fl c).Model = c.Model := by
  unfold applyOpenAIBaseURL; split <;> rfl

@[simp] theorem applyOpenAIBaseURL_MessageWindow (fl : Flags) (c : CleverChattyConfig) :
    (applyOpenAIBaseURL fl c).MessageWindow = c.MessageWindow := by
  unfold applyOpenAIBaseURL; split <;> rfl

@[simp] theorem applyOpenAIBaseURL_APIKey (fl : Flags) (c : CleverChattyConfig) :
    (applyOpenAIBaseURL fl c).OpenAI.APIKey = c.OpenAI.APIKey := by
  unfold applyOpenAIBaseURL; split <;> rfl

@[simp] theorem applyOpenAIBaseURL_BaseURL (fl : Flags) (c : CleverChattyConfig) :
    (applyOpenAIBaseURL fl c).OpenAI.BaseURL =
      if fl.openaiBaseURL = "" then c.OpenAI.BaseURL else fl.openaiBaseURL := by
  unfold applyOpenAIBaseURL; split_ifs <;> simp_all

@[simp] theorem applyAnthropicBaseURL_OpenAI (fl : Flags) (c : CleverChattyConfig) :
    (applyAnthropicBaseURL fl c).OpenAI = c.OpenAI := by
  unfold applyAnthropicBaseURL; split <;> rfl

@[simp] theorem applyAnthropicBaseURL_Google (fl : Flags) (c : CleverChattyConfig) :
    (applyAnthropicBaseURL fl c).Google = c.Google := by
  unfold applyAnthropicBaseURL; split <;> rfl

@[simp] theorem applyAnthropicBaseURL_Model (fl : Flags) (c : CleverChattyConfig) :
    (applyAnthropicBaseURL fl c).Model = c.Model := by
  unfold applyAnthropicBaseURL; split <;> rfl

@[simp] theorem applyAnthropicBaseURL_MessageWindow (fl : Flags) (c : CleverChattyConfig) :
    (applyAnthropicBaseURL fl c).MessageWindow = c.MessageWindow := by
  unfold applyAnthropicBaseURL; split <;> rfl

@[simp] theorem applyAnthropicBaseURL_APIKey (fl : Flags) (c : CleverChattyConfig) :
    (applyAnthropicBaseURL fl c).Anthropic.APIKey = c.Anthropic.APIKey := by
  unfold applyAnthropicBaseURL; split <;> rfl

@[simp] theorem applyAnthropicBaseURL_BaseURL (fl : Flags) (c : CleverChattyConfig) :
    (applyAnthropicBaseURL fl c).Anthropic.BaseURL =
      if fl.anthropicBaseURL = "" then c.Anthropic.BaseURL else fl.anthropicBaseURL := by
  unfold applyAnthropicBaseURL; split_ifs <;> simp_all

@[simp] theorem applyOpenAIKey_Anthropic (fl : Flags) (env : Env) (c : CleverChattyConfig) :
    (applyOpenAIKey fl env c).Anthropic = c.Anthropic := by
  simp only [applyOpenAIKey]; split_ifs <;> rfl

@[simp] theorem applyOpenAIKey_Google (fl : Flags) (env : Env) (c : CleverChattyConfig) :
    (applyOpenAIKey fl env c).Google = c.Google := by
  simp only [applyOpenAIKey]; split_ifs <;> rfl

@[simp] theorem applyOpenAIKey_Model (fl : Flags) (env : Env) (c : CleverChattyConfig) :
    (applyOpenAIKey fl env c).Model = c.Model := by
  simp only [applyOpenAIKey]; split_ifs <;> rfl

@[simp] theorem applyOpenAIKey_MessageWindow (fl : Flags) (env : Env) (c : CleverChattyConfig) :
    (applyOpenAIKey fl env c).MessageWindow = c.MessageWindow := by
  simp only [applyOpenAIKey]; split_ifs <;> rfl

@[simp] theorem applyOpenAIKey_BaseURL (fl : Flags) (env : Env) (c : CleverChattyConfig) :
    (applyOpenAIKey fl env c).OpenAI.BaseURL = c.OpenAI.BaseURL := by
  simp only [applyOpenAIKey]; split_ifs <;> rfl

@[simp] theorem applyOpenAIKey_APIKey (fl : Flags) (env : Env) (c : CleverChattyConfig) :
    (applyOpenAIKey fl env c).OpenAI.APIKey =
      if fl.openaiAPIKey = "" then
        (if c.OpenAI.APIKey = "" then env.OPENAI_API_KEY else c.OpenAI.APIKey)
      else fl.openaiAPIKey := by
  simp only [applyOpenAIKey]; split_ifs <;> simp_all

@[simp] theorem applyAnthropicKey_OpenAI (fl : Flags) (env : Env) (c : CleverChattyConfig) :
    (applyAnthropicKey fl env c).OpenAI = c.OpenAI := by
  simp only [applyAnthropicKey]; split_ifs <;> rfl

@[simp] theorem applyAnthropicKey_Google (fl : Flags) (env : Env) (c : CleverChattyConfig) :
    (applyAnthropicKey fl env c).Google = c.Google := by
  simp only [applyAnthropicKey]; split_ifs <;> rfl

@[simp] theorem applyAnthropicKey_Model (fl : Flags) (env : Env) (c : CleverChattyConfig) :
    (applyAnthropicKey fl env c).Model = c.Model := by
  simp only [applyAnthropicKey]; split_ifs <;> rfl

@[simp] theorem applyAnthropicKey_MessageWindow (fl : Flags) (env : Env) (c : CleverChattyConfig) :
    (applyAnthropicKey fl env c).MessageWindow = c.MessageWindow := by
  simp only [applyAnthropicKey]; split_ifs <;> rfl

@[simp] theorem applyAnthropicKey_BaseURL (fl : Flags) (env : Env) (c : CleverChattyConfig) :
    (applyAnthropicKey fl env c).Anthropic.BaseURL = c.Anthropic.BaseURL := by
  simp only [applyAnthropicKey]; split_ifs <;> rfl

@[simp] theorem applyAnthropicKey_APIKey (fl : Flags) (env : Env) (c : CleverChattyConfig) :
    (applyAnthropicKey fl env c).Anthropic.APIKey =
      if fl.anthropicAPIKey = "" then
        (if c.Anthropic.APIKey = "" then env.ANTHROPIC_API_KEY else c.Anthropic.APIKey)
      else fl.anthropicAPIKey := by
  simp only [applyAnthropicKey]; split_ifs <;> simp_all

@[simp] theorem applyGoogleKey_OpenAI (fl : Flags) (env : Env) (c : CleverChattyConfig) :
    (applyGoogleKey fl env c).OpenAI = c.OpenAI := by
  simp only [applyGoogleKey]; split_ifs <;> rfl

@[simp] theorem applyGoogleKey_Anthropic (fl : Flags) (env : Env) (c : CleverChattyConfig) :
    (applyGoogleKey fl env c).Anthropic = c.Anthropic := by
  simp only [applyGoogleKey]; split_ifs <;> rfl

@[simp] theorem applyGoogleKey_Model (fl : Flags) (env : Env) (c : CleverChattyConfig) :
    (applyGoogleKey fl env c).Model = c.Model := by
  simp only [applyGoogleKey]; split_ifs <;> rfl

@[simp] theorem applyGoogleKey_MessageWindow (fl : Flags) (env : Env) (c : CleverChattyConfig) :
    (applyGoogleKey fl env c).MessageWindow = c.MessageWindow := by
  simp only [applyGoogleKey]; split_ifs <;> rfl

@[simp] theorem applyGoogleKey_APIKey (fl : Flags) (env : Env) (c : CleverChattyConfig) :
    (applyGoogleKey fl env c).Google.APIKey =
      if fl.googleAPIKey = "" then
        (if c.Google.APIKey = "" then
          (if env.GOOGLE_API_KEY = "" then env.GEMINI_API_KEY else env.GOOGLE_API_KEY)
        else c.Google.APIKey)
      else fl.googleAPIKey := by
  simp only [applyGoogleKey]; split_ifs <;> simp_all

/-- A successful `loadConfig` is `applyOverrides` of the loaded base. -/
theorem loadConfig_ok_iff (fl : Flags) (env : Env) (fs : ConfigFS)
    (base c : CleverChattyConfig) (hbase : loadBase fl fs = Except.ok base)
    (hc : loadConfig fl env fs = Except.ok c) :
    c = applyOverrides base fl env := by
  unfold loadConfig at hc
  rw [hbase] at hc
  exact (Except.ok.injEq _ _ ▸ hc).symm

/-! ### Spinner-trace lemmas -/

/-- `aliveRun` decomposes over concatenated traces. -/
theorem aliveRun_append (l1 l2 : List TermEvent) (k k1 : Nat)
    (h : aliveRun k l1 = some k1) :
    aliveRun k (l1 ++ l2) = aliveRun k1 l2 := by
  induction l1 generalizing k with
  | nil =>
    simp only [aliveRun, Option.some.injEq] at h
    subst h
    simp
  | cons e t ih =>
    cases e with
    | spinnerStart lbl =>
      by_cases hk : k = 0
      · simp only [aliveRun, hk, if_pos rfl, List.cons_append] at h ⊢
        exact ih _ h
      · simp [aliveRun, hk] at h
    | spinnerStop =>
      by_cases hk : k = 1
      · simp only [aliveRun, hk, if_pos rfl, List.cons_append] at h ⊢
        exact ih _ h
      · simp [aliveRun, hk] at h
    | printPrompt t' =>
      simp only [aliveRun, List.cons_append] at h ⊢
      exact ih _ h
    | printToolError t' =>
      simp only [aliveRun, List.cons_append] at h ⊢
      exact ih _ h
    | printResponse t' =>
      simp only [aliveRun, List.cons_append] at h ⊢
      exact ih _ h

/-- The trace generated by any sequence of controller calls is a legal
single-loop trace: its alive count never leaves {0, 1} and ends at the
final `actionInProgress` flag. -/
theorem spinnerRun_alive (ops : List SpinnerOp) : ∀ s : Bool,
    aliveRun (if s then 1 else 0) (spinnerRun s ops).2 =
      some (if (spinnerRun s ops).1 then 1 else 0) := by
  induction ops with
  | nil => intro s; simp [spinnerRun, aliveRun]
  | cons op rest ih =>
    intro s
    cases op with
    | showOp lbl =>
      cases s with
      | false =>
        simpa [spinnerRun, spinnerStep, showSpinner, releaseActionSpinner, aliveRun]
          using ih true
      | true =>
        simpa [spinnerRun, spinnerStep, showSpinner, releaseActionSpinner, aliveRun]
          using ih true
    | hideOp =>
      cases s with
      | false =>
        simpa [spinnerRun, spinnerStep, releaseActionSpinner, aliveRun] using ih false
      | true =>
        simpa [spinnerRun, spinnerStep, releaseActionSpinner, aliveRun] using ih false

/-- The default model identifier is not the empty string. -/
theorem defaultModelFlag_ne_empty : defaultModelFlag ≠ "" := by decide

/-! ### Claim theorems -/

/-- Claim C1: for every loaded base configuration, environment and flag
set, each provider credential resolved by `loadConfig` equals the
highest-precedence non-empty source, flag over file over environment
(for the Google key the environment itself is ordered GOOGLE before
GEMINI; the base URLs have no environment source in the code, matching
the spec, which says environment variables supply API keys only), and
an empty higher-precedence source never erases a lower one. -/
theorem loadConfig_credential_precedence (fl : Flags) (env : Env) (fs : ConfigFS)
    (base c : CleverChattyConfig)
    (hbase : loadBase fl fs = Except.ok base)
    (hc : loadConfig fl env fs = Except.ok c) :
    c.OpenAI.APIKey = firstNonEmpty [fl.openaiAPIKey, base.OpenAI.APIKey, env.OPENAI_API_KEY] ∧
    c.Anthropic.APIKey =
      firstNonEmpty [fl.anthropicAPIKey, base.Anthropic.APIKey, env.ANTHROPIC_API_KEY] ∧
    c.Google.APIKey =
      firstNonEmpty [fl.googleAPIKey, base.Google.APIKey, env.GOOGLE_API_KEY,
        env.GEMINI_API_KEY] ∧
    c.OpenAI.BaseURL = firstNonEmpty [fl.openaiBaseURL, base.OpenAI.BaseURL] ∧
    c.Anthropic.BaseURL = firstNonEmpty [fl.anthropicBaseURL, base.Anthropic.BaseURL] := by
  have hce := loadConfig_ok_iff fl env fs base c hbase hc
  subst hce
  unfold applyOverrides
  refine ⟨?_, ?_, ?_, ?_, ?_⟩ <;> simp [firstNonEmpty] <;> split_ifs <;> simp_all

/-- Witness for C1: a fixture with mixed flag, file and environment
sources, with both hypotheses discharged by evaluation. -/
theorem loadConfig_credential_precedence_witness :
    (applyOverrides wbase wflags wenv).OpenAI.APIKey =
      firstNonEmpty [wflags.openaiAPIKey, wbase.OpenAI.APIKey, wenv.OPENAI_API_KEY] ∧
    (applyOverrides wbase wflags wenv).Anthropic.APIKey =
      firstNonEmpty [wflags.anthropicAPIKey, wbase.Anthropic.APIKey, wenv.ANTHROPIC_API_KEY] ∧
    (applyOverrides wbase wflags wenv).Google.APIKey =
      firstNonEmpty [wflags.googleAPIKey, wbase.Google.APIKey, wenv.GOOGLE_API_KEY,
        wenv.GEMINI_API_KEY] ∧
    (applyOverrides wbase wflags wenv).OpenAI.BaseURL =
      firstNonEmpty [wflags.openaiBaseURL, wbase.OpenAI.BaseURL] ∧
    (applyOverrides wbase wflags wenv).Anthropic.BaseURL =
      firstNonEmpty [wflags.anthropicBaseURL, wbase.Anthropic.BaseURL] :=
  loadConfig_credential_precedence wflags wenv wfs wbase
    (applyOverrides wbase wflags wenv) rfl rfl

/-- Claim C2: at most one busy-indicator presentation loop is ever
alive: starting idle, the event trace of any sequence of
`showSpinner`/`releaseActionSpinner` calls keeps the number of live
loops in {0, 1} at every instant (the `aliveRun` audit never fails);
`showSpinner` on an active indicator completes the old loop's stop
handshake before the new loop starts; and `releaseActionSpinner` with
no active indicator is a no-op. -/
theorem spinner_at_most_one_loop :
    (∀ ops : List SpinnerOp, (aliveRun 0 (spinnerRun false ops).2).isSome = true) ∧
    (∀ lbl : String,
      showSpinner true lbl = (true, [TermEvent.spinnerStop, TermEvent.spinnerStart lbl])) ∧
    releaseActionSpinner false = (false, []) := by
  refine ⟨fun ops => ?_, fun lbl => rfl, rfl⟩
  have h := spinnerRun_alive ops false
  simp only [Bool.false_eq_true, if_false] at h
  rw [h]
  rfl

/-- Claim C3 (code bug): dispatching the line "/quit" prints the
farewell and terminates the process through `os.Exit(0)`
(main.go:233), which in Go skips the deferred
`cleverChattyObject.Finish()` (main.go:551-557): the session
terminates with the engine shutdown hook invoked zero times, not
exactly once as specified. -/
theorem quit_command_skips_finish :
    (run engineOK [InputEvent.line "/quit"]).outputs = [SessionAction.goodbye] ∧
    (run engineOK [InputEvent.line "/quit"]).exit = RunExit.osExit 0 ∧
    (run engineOK [InputEvent.line "/quit"]).finishCount = 0 := by decide

/-- Counterexample to claim C4: the line " /quit" (leading space) is
"/quit" up to case and surrounding whitespace, yet `handleSlashCommand`
rejects it (the slash test at main.go:214 runs on the untrimmed line),
so the session does not terminate, prints no farewell, and forwards the
line to the engine's prompt-submission operation. -/
theorem quit_with_leading_space_forwarded :
    run engineOK [InputEvent.line " /quit"] =
      { outputs := [SessionAction.prompted " /quit"], exit := RunExit.stillRunning,
        finishCount := 0 } := by decide

/-- Claim C4 as amended: every line that starts with the slash
character (hence no leading whitespace) and whose trimmed, lower-cased
form is "/quit" — "/quit" in any letter case with any trailing
whitespace — terminates the session after printing the farewell and
never invokes the engine's prompt-submission operation. -/
theorem quit_trimmed_terminates (engine : String → Except String Unit)
    (rest : List InputEvent) (p : String)
    (h1 : goStartsWith p "/" = true) (h2 : goToLower (goTrim p) = "/quit") :
    run engine (InputEvent.line p :: rest) =
      { outputs := [SessionAction.goodbye], exit := RunExit.osExit 0, finishCount := 0 } := by
  have hp : ¬ (p = "") := by
    intro he
    subst he
    simp [goStartsWith, listStartsWith] at h1
  have hcmd : handleSlashCommand p = SlashOutcome.quitExit := by
    simp [handleSlashCommand, h1, h2]
  unfold run
  have hl : sessionLoop engine (InputEvent.line p :: rest) =
      ([SessionAction.goodbye], RunExit.osExit 0) := by
    unfold sessionLoop
    rw [if_neg hp, hcmd]
  rw [hl]
  rfl

/-- Witness for the amended C4 at the concrete line "/QUIT  ". -/
theorem quit_trimmed_terminates_witness :
    (goStartsWith "/QUIT  " "/" = true ∧ goToLower (goTrim "/QUIT  ") = "/quit") ∧
    run engineOK [InputEvent.line "/QUIT  "] =
      { outputs := [SessionAction.goodbye], exit := RunExit.osExit 0, finishCount := 0 } :=
  ⟨⟨by decide, by decide⟩,
   quit_trimmed_terminates engineOK [] "/QUIT  " (by decide) (by decide)⟩

/-- Counterexample to claim C5: with no explicit config path,
`loadConfig` still fails when `./config.json` exists at the
conventional location but does not parse (main.go:135-151). -/
theorem config_failure_without_explicit_path :
    noFlags.configFile = "" ∧
    loadConfig noFlags emptyEnv corruptDefaultFS =
      Except.error ("error loading config file: " ++ "unexpected end of JSON input") :=
  ⟨rfl, rfl⟩

/-- Claim C5 as amended: resolution fails only when a config file is
actually loaded or created — an explicit path was given, or
`./config.json` exists at the conventional location; when no explicit
path is given and no conventional file is found, resolution always
succeeds, from the empty base configuration. -/
theorem loadConfig_ok_without_any_file (fl : Flags) (env : Env) (fs : ConfigFS)
    (h1 : fl.configFile = "") (h2 : fs.stat "config.json" ≠ StatResult.ok) :
    loadConfig fl env fs = Except.ok (applyOverrides emptyConfig fl env) := by
  have hb : loadBase fl fs = Except.ok emptyConfig := by
    unfold loadBase
    simp [h1, h2]
  unfold loadConfig
  rw [hb]

/-- Witness for the amended C5 on a file system with no files. -/
theorem loadConfig_ok_without_any_file_witness :
    (noFlags.configFile = "" ∧ noFileFS.stat "config.json" ≠ StatResult.ok) ∧
    loadConfig noFlags emptyEnv noFileFS =
      Except.ok (applyOverrides emptyConfig noFlags emptyEnv) :=
  ⟨⟨rfl, by decide⟩,
   loadConfig_ok_without_any_file noFlags emptyEnv noFileFS rfl (by decide)⟩

/-- Counterexample to claim C6: a whitespace-only line is empty after
trimming, but the loop's empty test (main.go:605) compares the
untrimmed line with "", so " " is neither ignored nor a command: it is
forwarded to the engine's prompt-submission operation. -/
theorem whitespace_line_forwarded :
    run engineOK [InputEvent.line " "] =
      { outputs := [SessionAction.prompted " "], exit := RunExit.stillRunning,
        finishCount := 0 } := by decide

/-- Claim C6 as amended: only a line that is exactly the empty string
is silently ignored — the loop neither dispatches it as a command nor
forwards it and simply re-prompts, the session continuing unchanged. -/
theorem empty_line_ignored (engine : String → Except String Unit) (rest : List InputEvent) :
    run engine (InputEvent.line "" :: rest) = run engine rest := by
  unfold run
  have hl : sessionLoop engine (InputEvent.line "" :: rest) = sessionLoop engine rest := by
    simp [sessionLoop]
  rw [hl]

/-- Claim C7: the `ToolCallFailed` and `ResponseReceived` handlers
always leave the busy indicator idle, and each first hides the
indicator (completing the stop handshake) and only then writes its
terminal output; the event sequence ThinkingStarted,
ToolCallStarted(x), ToolCallFailed(x, err), ResponseReceived(ok) ends
idle and produces the terminal events in exactly that order, the error
line before the response text. -/
theorem lifecycle_handlers_leave_idle :
    (∀ (s : Bool) (n e : String),
      (handleEvent s (LifecycleEvent.toolCallFailed n e)).1 = false) ∧
    (∀ (s : Bool) (t : String),
      (handleEvent s (LifecycleEvent.responseReceived t)).1 = false) ∧
    (∀ n e : String, handleEvent true (LifecycleEvent.toolCallFailed n e) =
      (false, [TermEvent.spinnerStop, TermEvent.printToolError n])) ∧
    (∀ t : String, handleEvent true (LifecycleEvent.responseReceived t) =
      (false, [TermEvent.spinnerStop, TermEvent.printResponse t])) ∧
    (∀ x e ok : String,
      runEvents false [LifecycleEvent.thinkingStarted, LifecycleEvent.toolCallStarted x,
        LifecycleEvent.toolCallFailed x e, LifecycleEvent.responseReceived ok] =
      (false, [TermEvent.spinnerStart "💭 Thinking...", TermEvent.spinnerStop,
        TermEvent.spinnerStart ("🔧 Using tool: " ++ x), TermEvent.spinnerStop,
        TermEvent.printToolError x, TermEvent.printResponse ok])) := by
  refine ⟨?_, ?_, fun n e => rfl, fun t => rfl, fun x e ok => rfl⟩
  · intro s n e
    cases s <;> rfl
  · intro s t
    cases s <;> rfl

/-- Claim C8: the resolved model identifier is never empty: when the
model flag is empty and the loaded base supplies no model, the fixed
default model identifier is substituted (main.go:158-163). -/
theorem loadConfig_model_nonempty (fl : Flags) (env : Env) (fs : ConfigFS)
    (base c : CleverChattyConfig)
    (hbase : loadBase fl fs = Except.ok base)
    (hc : loadConfig fl env fs = Except.ok c) :
    c.Model ≠ "" ∧ (fl.modelFlag = "" → base.Model = "" → c.Model = defaultModelFlag) := by
  have hce := loadConfig_ok_iff fl env fs base c hbase hc
  subst hce
  unfold applyOverrides
  constructor
  · simp only [applyGoogleKey_Model, applyAnthropicKey_Model, applyOpenAIKey_Model,
      applyAnthropicBaseURL_Model, applyOpenAIBaseURL_Model, applyModel_Model,
      applyMessageWindow_Model, applyDebug_Model]
    split_ifs <;> simp_all [defaultModelFlag_ne_empty]
  · intro h1 h2
    simp [h1, h2]

/-- Witness for C8: with no model flag and an empty base, the resolved
model is the hard-coded default. -/
theorem loadConfig_model_nonempty_witness :
    (applyOverrides emptyConfig noFlags emptyEnv).Model ≠ "" ∧
    (noFlags.modelFlag = "" → emptyConfig.Model = "" →
      (applyOverrides emptyConfig noFlags emptyEnv).Model = defaultModelFlag) :=
  loadConfig_model_nonempty noFlags emptyEnv noFileFS emptyConfig
    (applyOverrides emptyConfig noFlags emptyEnv) rfl rfl

/-- Claim C9: a user interrupt (Ctrl+C) while the loop awaits input
terminates the session with a farewell and a zero exit indication (the
loop returns nil, main.go:596-601, and `main` exits 0), running the
deferred shutdown once; any other input-read error is propagated as
fatal, making `main` exit 1. -/
theorem interrupt_clean_exit :
    (∀ (engine : String → Except String Unit) (rest : List InputEvent),
      run engine (InputEvent.ctrlC :: rest) =
        { outputs := [SessionAction.goodbye], exit := RunExit.returnedOk, finishCount := 1 } ∧
      mainExitCode (run engine (InputEvent.ctrlC :: rest)).exit = some 0) ∧
    (∀ (engine : String → Except String Unit) (rest : List InputEvent) (m : String),
      run engine (InputEvent.readErr m :: rest) =
        { outputs := [], exit := RunExit.returnedErr m, finishCount := 1 } ∧
      mainExitCode (RunExit.returnedErr m) = some 1) :=
  ⟨fun _ _ => ⟨rfl, rfl⟩, fun _ _ _ => ⟨rfl, rfl⟩⟩

/-- Claim C10: when the message-window flag is 0 (its default) and the
loaded config file carries a positive message window, the resolved
message window is the file's value: a zero flag never overrides the
file (main.go:155-157). -/
theorem message_window_zero_flag_keeps_file_value (fl : Flags) (env : Env) (fs : ConfigFS)
    (base c : CleverChattyConfig)
    (hbase : loadBase fl fs = Except.ok base)
    (hc : loadConfig fl env fs = Except.ok c)
    (hflag : fl.messageWindow = 0)
    (_hpos : 0 < base.MessageWindow) :
    c.MessageWindow = base.MessageWindow := by
  have hce := loadConfig_ok_iff fl env fs base c hbase hc
  subst hce
  unfold applyOverrides
  simp [hflag]

/-- Witness for C10: file sets message window 5, flag left at 0. -/
theorem message_window_zero_flag_keeps_file_value_witness :
    (applyOverrides windowBase noFlags emptyEnv).MessageWindow = windowBase.MessageWindow :=
  message_window_zero_flag_keeps_file_value noFlags emptyEnv windowFS windowBase
    (applyOverrides windowBase noFlags emptyEnv) rfl rfl rfl (by decide)

end CleverchattyCli
